import Mathlib

/-!
Verification of the agentrouter message ingestion/routing pipeline and its
CAMS (Central Agent Mapping Service) directory layers.

The definitions below are a shallow embedding of the Python sources:

* `services/router/message_router_service.py` — `handle_message_ingestion`;
* `services/cams/cams_repository.py` — the asyncpg-backed repository
  (`register_agent_mapping`, `update_agent_mapping_details`,
  `delete_agent_mapping`, `_execute`, `_fetchrow`);
* `services/router/cams_client.py` — the router-side CAMS client;
* `services/cams/cams_api_async.py` — the HTTP CAMS client with its retry
  loop (`_request`) and delete/get wrappers;
* `services/router/routers/agent_health.py` — `report_agent_health`.

External effects (database rows, HTTP attempts, Pub/Sub publishes) are made
explicit: stores are association lists of records and attempt outcomes are
oracles indexed by attempt number.  Handlers additionally return a trace of
the external calls they made, so that claims of the form "no directory
lookup is attempted" are provable.  Defects of the sources are embedded as
written: `handle_message_ingestion` invokes its async directory lookup
without `await` from synchronous code, so every request that passes
validation raises `AttributeError` on the coroutine object, and the HTTP
client's backoff line names the never-imported `asyncio`, raising
`NameError` on the first transient failure.
-/

namespace AgentRouter

/-! ## JSON values (Python `dict` / `json` model) -/

/-- A JSON value, the model of Python objects travelling through the router:
request payloads, `senderMetadata` and Pub/Sub attribute values. -/
inductive JValue where
  | jnull : JValue
  | jbool : Bool → JValue
  | jnum : Int → JValue
  | jstr : String → JValue
  | jarr : List JValue → JValue
  | jobj : List (String × JValue) → JValue

/-- Python truthiness of a JSON value (`bool(x)`): `None`, `False`, `0`,
`""`, `[]` and `\x7b\x7d` are falsy. -/
def pyTruthy : JValue → Bool
  | .jnull => false
  | .jbool b => b
  | .jnum n => n != 0
  | .jstr s => s != ""
  | .jarr xs => !xs.isEmpty
  | .jobj fs => !fs.isEmpty


/-! ## Python `str.upper` (ASCII fragment, as exercised by the sources) -/

/-- Python `str.upper` on one ASCII character. -/
def pyUpperChar (c : Char) : Char :=
  if c.toNat ≥ 97 ∧ c.toNat ≤ 122 then Char.ofNat (c.toNat - 32) else c

/-- Python `str.upper` (the sources only pass ASCII status strings). -/
def pyUpper (s : String) : String :=
  String.mk (s.data.map pyUpperChar)

theorem charOfNat_toNat (n : Nat) (h : n < 55296) : (Char.ofNat n).toNat = n := by
  have hv : n.isValidChar := Or.inl h
  simp [Char.ofNat, hv, Char.toNat, Char.ofNatAux, UInt32.toNat]

theorem pyUpperChar_idem (c : Char) : pyUpperChar (pyUpperChar c) = pyUpperChar c := by
  by_cases h : c.toNat ≥ 97 ∧ c.toNat ≤ 122
  · have ht : (Char.ofNat (c.toNat - 32)).toNat = c.toNat - 32 :=
      charOfNat_toNat _ (by omega)
    simp only [pyUpperChar, if_pos h]
    rw [if_neg (by omega)]
  · simp only [pyUpperChar, if_neg h]

theorem pyUpper_idem (s : String) : pyUpper (pyUpper s) = pyUpper s := by
  simp [pyUpper, Function.comp_def, pyUpperChar_idem]

/-! ## The routing pipeline (`handle_message_ingestion`)

`services/router/message_router_service.py`, lines 421-539.
`handle_message_ingestion` is a synchronous function.  Its step 3,
`agent_mapping = cams_client.get_agent_mapping(ai_agent_address)` (line 457),
calls an `async def` method — `cams_client` is the `CAMSClientWrapper` bound
at line 337, whose `get_agent_mapping` is a coroutine function (further
wrapped by `timed_operation`'s async wrapper) — without `await` and without
any event loop, so `agent_mapping` is a freshly created coroutine object and
no directory access is performed.  A coroutine object is truthy, so the
`if not agent_mapping:` branch at line 460 (AGENT_NOT_FOUND) can never fire,
and `agent_mapping.get("status")` at line 467 raises `AttributeError`
(`'coroutine' object has no attribute 'get'`), which nothing in the function
catches.  Every request that passes validation therefore raises; the status
gate, inbox-name check, transform and publish steps (lines 467-539) are
unreachable.  Only the validation failures of step 2 produce responses. -/

/-- An inbound ingestion request body (`request_payload.get(...)` on the
three keys the handler reads; `none` models an absent key). -/
structure IngestRequest where
  aiAgentAddress : Option JValue
  payload : Option JValue
  senderMetadata : Option JValue

/-- The body of the handler's JSON response: an error body
`\x7b"errorCode": ..., "message": ...\x7d` or a success body
`\x7b"messageId": ...\x7d`. -/
inductive RespBody where
  | err : String → String → RespBody
  | ok : String → RespBody
deriving DecidableEq

/-- `create_json_response(data, status_code)`. -/
structure HttpResponse where
  statusCode : Nat
  body : RespBody
deriving DecidableEq

/-- The Pub/Sub message shape `publish_message` would receive (the handler
never reaches the publish step, so no value of this type is ever traced). -/
structure PubSubEnvelope where
  data : String
  attributes : List (String × JValue)

/-- External calls made while handling one ingestion request: directory
lookups actually executed and Pub/Sub publish calls actually made.
Creating a coroutine without awaiting it executes none of its body, so an
un-awaited `get_agent_mapping` call records no lookup. -/
structure IngestTrace where
  lookups : List String
  publishes : List (String × PubSubEnvelope)

/-- A Python exception escaping `handle_message_ingestion` uncaught. -/
inductive PyRaised where
  | attributeError : PyRaised
deriving DecidableEq

/-- Python `str.strip()` with no argument: remove whitespace from both
ends (ASCII whitespace, which is all the sources exercise). -/
def pyStrip (s : String) : String :=
  String.mk ((((s.data.dropWhile Char.isWhitespace).reverse.dropWhile
    Char.isWhitespace).reverse))

/-- The address validation of step 2: Python rejects with
`not ai_agent_address or not isinstance(ai_agent_address, str) or not
ai_agent_address.strip()`.  A value passes exactly when it is a string whose
strip is non-empty: an absent key is `None` (falsy), a falsy non-string fails
the first test, a truthy non-string fails the `isinstance` test, and a
whitespace-only string fails the `strip` test (`s != ""` is subsumed by
`pyStrip s != ""`). -/
def validateAddress : Option JValue → Option String
  | some (.jstr s) => if pyTruthy (.jstr s) ∧ pyStrip s ≠ "" then some s else none
  | _ => none

/-- `handle_message_ingestion(request_payload)`: either a returned JSON
response or the uncaught exception, together with the trace of external
calls.  The validation rejections of step 2 return 400 responses; every
request that passes validation reaches line 467's `.get` on the un-awaited
lookup coroutine and raises `AttributeError`, having performed no directory
lookup and no publish. -/
def handleMessageIngestion (req : IngestRequest) :
    Except PyRaised HttpResponse × IngestTrace :=
  -- 1. messageId generation (str(uuid.uuid4())) runs but its result is
  --    only used on the unreachable success path
  -- 2. Input validation
  match validateAddress req.aiAgentAddress with
  | none =>
    (.ok ⟨400, .err "INVALID_REQUEST"
        "aiAgentAddress is required and must be a non-empty string."⟩, ⟨[], []⟩)
  | some _ =>
    match req.payload with
    | none =>
      (.ok ⟨400, .err "INVALID_REQUEST" "payload is required."⟩, ⟨[], []⟩)
    | some p =>
      match p with
      | .jobj _ =>
        -- 3. `cams_client.get_agent_mapping(...)` without await: a truthy
        --    coroutine object, no directory access
        -- 4. `if not agent_mapping:` skipped; `agent_mapping.get("status")`
        --    raises AttributeError, uncaught
        (.error .attributeError, ⟨[], []⟩)
      | _ =>
        (.ok ⟨400, .err "INVALID_REQUEST" "payload must be a JSON object."⟩, ⟨[], []⟩)

/-! ## The CAMS repository (`services/cams/cams_repository.py`)

Rows of the `agent_inboxes` table.  Timestamps are naturals (an abstract
monotone clock supplied by the caller of each operation). -/

/-- One row of `agent_inboxes`. -/
structure AgentRecord where
  ai_agent_address : String
  inbox_destination_type : String
  inbox_name : String
  status : String
  description : Option String
  owner_team : Option String
  updated_by : Option String
  registration_timestamp : Nat
  last_updated_timestamp : Nat
  last_health_check_timestamp : Option Nat
deriving DecidableEq

/-- The `agent_inboxes` table: a list of rows with unique addresses
(uniqueness is enforced by `pgInsertAgentInbox`). -/
abbrev Store := List AgentRecord

/-- `SELECT * FROM agent_inboxes WHERE ai_agent_address = $1`. -/
def storeFind (s : Store) (addr : String) : Option AgentRecord :=
  s.find? (fun r => r.ai_agent_address = addr)

/-- Replace the row with the given address. -/
def storeReplace (s : Store) (addr : String) (r : AgentRecord) : Store :=
  s.map (fun x => if x.ai_agent_address = addr then r else x)

/-- Remove the row with the given address. -/
def storeRemove (s : Store) (addr : String) : Store :=
  s.filter (fun x => x.ai_agent_address ≠ addr)

/-- The errors asyncpg raises towards the repository:
`asyncpg.UniqueViolationError` is a subclass of `asyncpg.PostgresError`,
and every other `asyncpg.PostgresError` is collapsed into `otherError`. -/
inductive PgError where
  | uniqueViolation
  | otherError
deriving DecidableEq

/-- The repository's exception taxonomy: `DuplicateAgentError`,
`AgentNotFoundError` and the base `CAMSRepositoryError` (the generic
"Database error" wrapper). -/
inductive RepoErr where
  | duplicateAgent
  | agentNotFound
  | repositoryError
deriving DecidableEq

/-- The error translation of `_fetchrow` (lines 65-73): a single
`except asyncpg.PostgresError` handler turns every Postgres error —
unique violations included, since `UniqueViolationError` subclasses
`PostgresError` — into the generic `CAMSRepositoryError`. -/
def fetchrowWrap {α : Type} : Except PgError α → Except RepoErr α
  | .ok a => .ok a
  | .error _ => .error .repositoryError

/-- The error translation of `_execute` (lines 53-63): an
`except asyncpg.UniqueViolationError` handler raising `DuplicateAgentError`,
then `except asyncpg.PostgresError` raising `CAMSRepositoryError`. -/
def executeWrap {α : Type} : Except PgError α → Except RepoErr α
  | .ok a => .ok a
  | .error .uniqueViolation => .error .duplicateAgent
  | .error .otherError => .error .repositoryError

/-- Modelled from the spec: the `agent_inboxes` schema lives in
`create_cams_table.sql`, which is not under `src/`.  Per the spec the store
"owns [the] uniqueness invariant on address" — creation "fails if a record
with the same address exists", "enforced by a uniqueness constraint at the
store" — and `registeredAt` / `lastUpdatedAt` are server-assigned.  So the
INSERT raises a unique violation when a row with the address exists, and
otherwise appends the row with both timestamps set to the insertion
instant. -/
def pgInsertAgentInbox (s : Store) (addr dtype iname st : String)
    (descr team ub : Option String) (now : Nat) :
    Except PgError AgentRecord × Store :=
  match storeFind s addr with
  | some _ => (.error .uniqueViolation, s)
  | none =>
    let r : AgentRecord :=
      { ai_agent_address := addr
        inbox_destination_type := dtype
        inbox_name := iname
        status := st
        description := descr
        owner_team := team
        updated_by := ub
        registration_timestamp := now
        last_updated_timestamp := now
        last_health_check_timestamp := none }
    (.ok r, s ++ [r])

/-- `register_agent_mapping` (lines 85-119): an
`INSERT ... RETURNING *` with `inbox_destination_type.upper()` and
`status.upper()`, executed through `_fetchrow` — so a unique violation
surfaces as the generic `CAMSRepositoryError`, not as
`DuplicateAgentError` (the repository's `except DuplicateAgentError`
re-raise is unreachable on this path). -/
def registerAgentMapping (s : Store) (addr dtype iname : String)
    (descr team ub : Option String) (st : String) (now : Nat) :
    Except RepoErr AgentRecord × Store :=
  let (res, s') := pgInsertAgentInbox s addr (pyUpper dtype) iname (pyUpper st)
    descr team ub now
  (fetchrowWrap res, s')

/-- `get_agent_mapping` (lines 121-128). -/
def getAgentMappingRepo (s : Store) (addr : String) : Option AgentRecord :=
  storeFind s addr

/-- A value bound to an updated column: a string, a timestamp, or SQL NULL
(Python `None`). -/
inductive FieldVal where
  | vStr : String → FieldVal
  | vTime : Nat → FieldVal
  | vNull
deriving DecidableEq

/-- The allow-list of `update_agent_mapping_details` (lines 166-173). -/
def allowedUpdateFields : List String :=
  ["inbox_destination_type", "inbox_name", "status", "description",
   "owner_team", "last_health_check_timestamp"]

/-- The errors `update_agent_mapping_details` can raise: the two
`ValueError`s, the `AttributeError` from calling `.upper()` on a non-string
`status` value, and the repository errors. -/
inductive UpdErr where
  | noFieldsToUpdate
  | invalidFields : List String → UpdErr
  | typeError
  | store : RepoErr → UpdErr
deriving DecidableEq

/-- `kwargs["status"] = kwargs["status"].upper()` (lines 181-182);
`.upper()` on a non-string raises. -/
def upperStatusEntry : String × FieldVal → Option (String × FieldVal)
  | ("status", .vStr v) => some ("status", .vStr (pyUpper v))
  | ("status", _) => none
  | e => some e

/-- The status normalization over the whole kwargs mapping. -/
def upperStatusAll : List (String × FieldVal) → Option (List (String × FieldVal))
  | [] => some []
  | e :: rest =>
    match upperStatusEntry e with
    | none => none
    | some e1 => (upperStatusAll rest).map (e1 :: ·)

/-- Assign one column of a row.  A value whose type does not fit the column
is a Postgres datatype error, modelled as `none`. -/
def applyField (r : AgentRecord) : String × FieldVal → Option AgentRecord
  | ("inbox_destination_type", .vStr v) => some { r with inbox_destination_type := v }
  | ("inbox_name", .vStr v) => some { r with inbox_name := v }
  | ("status", .vStr v) => some { r with status := v }
  | ("description", .vStr v) => some { r with description := some v }
  | ("description", .vNull) => some { r with description := none }
  | ("owner_team", .vStr v) => some { r with owner_team := some v }
  | ("owner_team", .vNull) => some { r with owner_team := none }
  | ("last_health_check_timestamp", .vTime t) =>
    some { r with last_health_check_timestamp := some t }
  | ("last_health_check_timestamp", .vNull) =>
    some { r with last_health_check_timestamp := none }
  | _ => none

/-- Assign all columns of the SET clause in order. -/
def applyFields (r : AgentRecord) : List (String × FieldVal) → Option AgentRecord
  | [] => some r
  | e :: rest => (applyField r e).bind (fun r1 => applyFields r1 rest)

/-- The UPDATE statement of `update_agent_mapping_details`:
`UPDATE agent_inboxes SET <fields>, updated_by = $1 WHERE ai_agent_address =
$n RETURNING *`.  Updating a missing address returns no row; a datatype
mismatch is a Postgres error.  Modelled from the spec: the schema
(`create_cams_table.sql`, not under `src/`) stamps `last_updated_timestamp`
on every row update — the spec's `lastUpdatedAt` is "server-assigned on
every mutation" and is stamped "as part of the same atomic operation that
applies other fields". -/
def dbUpdateAgentInbox (s : Store) (addr : String) (ub : Option String)
    (fields : List (String × FieldVal)) (now : Nat) :
    Except PgError (Option AgentRecord) × Store :=
  match storeFind s addr with
  | none => (.ok none, s)
  | some r =>
    match applyFields r fields with
    | none => (.error .otherError, s)
    | some r1 =>
      let r2 := { r1 with updated_by := ub, last_updated_timestamp := now }
      (.ok (some r2), storeReplace s addr r2)

/-- `update_agent_mapping_details` (lines 157-210). -/
def updateAgentMappingDetails (s : Store) (addr : String) (ub : Option String)
    (kwargs : List (String × FieldVal)) (now : Nat) :
    Except UpdErr AgentRecord × Store :=
  if kwargs.isEmpty then (.error .noFieldsToUpdate, s)
  else
    let invalid := (kwargs.map Prod.fst).filter (fun k => k ∉ allowedUpdateFields)
    if invalid.isEmpty then
      match upperStatusAll kwargs with
      | none => (.error .typeError, s)
      | some kw1 =>
        -- `last_health_check_timestamp: None` is replaced by the current time
        let kw2 := kw1.map (fun e =>
          if e.1 = "last_health_check_timestamp" ∧ e.2 = FieldVal.vNull then
            (e.1, FieldVal.vTime now)
          else e)
        match dbUpdateAgentInbox s addr ub kw2 now with
        | (.error e, s') =>
          (match fetchrowWrap (α := Unit) (.error e) with
           | .error re => (.error (.store re), s')
           | .ok _ => (.error (.store .repositoryError), s'))
        | (.ok none, s') => (.error (.store .agentNotFound), s')
        | (.ok (some r), s') => (.ok r, s')
    else (.error (.invalidFields invalid), s)

/-- `delete_agent_mapping` (lines 212-226): a
`DELETE ... RETURNING ai_agent_address` through `_fetchrow`; no returned row
raises `AgentNotFoundError`. -/
def deleteAgentMappingRepo (s : Store) (addr : String) :
    Except RepoErr Bool × Store :=
  match storeFind s addr with
  | none => (.error .agentNotFound, s)
  | some _ => (.ok true, storeRemove s addr)

/-! ## The router-side CAMS client (`services/router/cams_client.py`) -/

/-- `CAMSClient.delete_agent_mapping` (lines 142-153): returns `True` on
success and catches `AgentNotFoundError`, returning `False`; other
repository errors propagate. -/
def routerClientDeleteAgentMapping (s : Store) (addr : String) :
    Except RepoErr Bool × Store :=
  match deleteAgentMappingRepo s addr with
  | (.ok b, s') => (.ok b, s')
  | (.error .agentNotFound, s') => (.ok false, s')
  | (.error e, s') => (.error e, s')

/-- `CAMSClient.update_agent_mapping_details` (lines 107-140): forwards to
the repository and catches `AgentNotFoundError`, returning `None`; other
errors propagate. -/
def routerClientUpdateDetails (s : Store) (addr : String) (ub : Option String)
    (kwargs : List (String × FieldVal)) (now : Nat) :
    Except UpdErr (Option AgentRecord) × Store :=
  match updateAgentMappingDetails s addr ub kwargs now with
  | (.ok r, s') => (.ok (some r), s')
  | (.error (.store .agentNotFound), s') => (.ok none, s')
  | (.error e, s') => (.error e, s')

/-! ## The HTTP CAMS client (`services/cams/cams_api_async.py`)

`CAMSClient._request` (lines 54-79) loops over
`range(self.config.retry_attempts)` (default 3).  Each iteration performs one
HTTP attempt; `raise_for_status` turns a 4xx/5xx into an `HTTPStatusError`.
A 4xx is re-raised immediately; a 5xx or a `RequestError`/`JSONDecodeError`
stores `last_error` and falls through to

```
if attempt < self.config.retry_attempts - 1:
    await asyncio.sleep(2 ** attempt)
```

— but the module never imports `asyncio`, so evaluating the name `asyncio`
raises an uncaught `NameError` there.  The embedding keeps that line as
written.  The outcome of each HTTP attempt is an oracle indexed by the
attempt number, and the result carries how many attempts ran and which
backoff sleeps were actually performed. -/

/-- The outcome of one HTTP attempt inside `_request`. -/
inductive AttemptOutcome where
  | success
  | httpStatus : Nat → AttemptOutcome
  | requestError
deriving DecidableEq

/-- How `_request` terminates. -/
inductive ReqResult where
  | ok
  | raisedHttp : Nat → ReqResult
  | raisedNameError
  | raisedLastError
deriving DecidableEq

/-- The `for attempt in range(retry_attempts)` loop of `_request`, from
attempt `i` with `remaining` iterations left.  Returns the result, the
number of attempts performed, and the seconds slept between attempts. -/
def requestFrom (retryAttempts : Nat) (outcomes : Nat → AttemptOutcome) :
    Nat → Nat → ReqResult × Nat × List Nat
  | 0, _ => (.raisedLastError, 0, [])
  | remaining + 1, i =>
    let failThrough : Unit → ReqResult × Nat × List Nat := fun _ =>
      if i < retryAttempts - 1 then
        -- `await asyncio.sleep(2 ** attempt)`: `asyncio` is not imported,
        -- so this raises NameError before any sleep happens
        (.raisedNameError, 1, [])
      else
        let (res, n, sleeps) := requestFrom retryAttempts outcomes remaining (i + 1)
        (res, n + 1, sleeps)
    match outcomes i with
    | .success => (.ok, 1, [])
    | .httpStatus c =>
      if c < 500 then (.raisedHttp c, 1, [])  -- do not retry 4xx: re-raise
      else failThrough ()
    | .requestError => failThrough ()

/-- `CAMSClient._request` with the configured `retry_attempts`. -/
def camsRequest (retryAttempts : Nat) (outcomes : Nat → AttemptOutcome) :
    ReqResult × Nat × List Nat :=
  requestFrom retryAttempts outcomes retryAttempts 0

/-- How `CAMSClient.get_agent_mapping` terminates. -/
inductive ApiGetResult where
  | found
  | notFound
  | raisedHttp : Nat → ApiGetResult
  | raisedNameError
  | raisedOther
deriving DecidableEq

/-- `CAMSClient.get_agent_mapping` (lines 107-114): catches
`HTTPStatusError`, returns `None` on a 404 and re-raises otherwise;
anything else (the `NameError` included) propagates. -/
def camsApiGetAgentMapping (outcomes : Nat → AttemptOutcome) : ApiGetResult :=
  match camsRequest 3 outcomes with
  | (.ok, _, _) => .found
  | (.raisedHttp c, _, _) => if c = 404 then .notFound else .raisedHttp c
  | (.raisedNameError, _, _) => .raisedNameError
  | (.raisedLastError, _, _) => .raisedOther

/-- How `CAMSClient.delete_agent_mapping` terminates. -/
inductive ApiDeleteResult where
  | okDel
  | raisedHttp : Nat → ApiDeleteResult
  | raisedNameError
  | raisedOther
deriving DecidableEq

/-- `CAMSClient.delete_agent_mapping` (lines 128-134): catches
`HTTPStatusError` and ignores a 404 (`# Ignore 404 on delete`), so deleting
a missing record returns exactly as a successful delete does. -/
def camsApiDeleteAgentMapping (outcomes : Nat → AttemptOutcome) : ApiDeleteResult :=
  match camsRequest 3 outcomes with
  | (.ok, _, _) => .okDel
  | (.raisedHttp c, _, _) => if c ≠ 404 then .raisedHttp c else .okDel
  | (.raisedNameError, _, _) => .raisedNameError
  | (.raisedLastError, _, _) => .raisedOther

/-! ## The health endpoint (`services/router/routers/agent_health.py`)

`report_agent_health` (lines 40-116) uppercases the reported status,
validates it against `["HEALTHY", "UNHEALTHY"]` before any CAMS access,
resolves the address (404 if absent), and updates the mapping through the
CAMS client wrapper with `last_health_check_timestamp` set to the provided
or current timestamp, `updated_by = "agent_health_check"`, and — only for
UNHEALTHY — `status = "INACTIVE"`.  The wrapper forwards to
`cams_client.update_agent_mapping_details` and thence to the repository;
`AgentNotFoundError` is swallowed by the client (returns `None`, which the
handler ignores), and any other exception hits the generic 500 handler. -/

/-- The handler's terminal outcomes (`HealthCheckResponse` or
`HTTPException`). -/
inductive HealthResp where
  | success
  | badRequest : String → HealthResp
  | notFound : String → HealthResp
  | serverError
deriving DecidableEq

/-- `report_agent_health`.  Returns the response, the resulting store, and
the list of addresses read from the store before responding. -/
def reportAgentHealth (s : Store) (addr : String) (statusField : String)
    (tsOpt : Option Nat) (now : Nat) : HealthResp × Store × List String :=
  let healthStatus := pyUpper statusField
  if healthStatus ∉ ["HEALTHY", "UNHEALTHY"] then
    (.badRequest "Invalid health status. Must be \x27HEALTHY\x27 or \x27UNHEALTHY\x27.",
     s, [])
  else
    match storeFind s addr with
    | none => (.notFound ("Agent " ++ addr ++ " not found in CAMS"), s, [addr])
    | some _ =>
      let kwargs : List (String × FieldVal) :=
        [("last_health_check_timestamp", .vTime (tsOpt.getD now))]
        ++ (if healthStatus = "UNHEALTHY" then [("status", .vStr "INACTIVE")] else [])
      match routerClientUpdateDetails s addr (some "agent_health_check") kwargs now with
      | (.ok _, s') => (.success, s', [addr])
      | (.error _, s') => (.serverError, s', [addr])

/-! ## Claims -/

/-- C1 (code bug): the claim — and the module's own Scenario 2 self-test at
lines 562-571, which asserts 404/AGENT_NOT_FOUND for an unknown address —
describes the intended behavior, but the response is unreachable: every
request that passes validation (in particular one whose address was never
registered, so that the directory holds no record for it) raises
`AttributeError` at the status check on the un-awaited lookup coroutine, and
`handle_message_ingestion` returns no response at all, performing no
directory lookup and no publish. -/
theorem validated_request_raises_attribute_error_not_agent_not_found
    (req : IngestRequest) (addr : String) (fields : List (String × JValue))
    (haddr : validateAddress req.aiAgentAddress = some addr)
    (hpay : req.payload = some (.jobj fields)) :
    handleMessageIngestion req = (.error .attributeError, ⟨[], []⟩) := by
  simp [handleMessageIngestion, haddr, hpay]

/-- Witness for C1 at a concrete request whose address was never
registered. -/
theorem validated_request_raises_attribute_error_not_agent_not_found_witness :
    handleMessageIngestion ⟨some (.jstr "ghost@example.com"),
        some (.jobj []), none⟩ = (.error .attributeError, ⟨[], []⟩) :=
  validated_request_raises_attribute_error_not_agent_not_found
    ⟨some (.jstr "ghost@example.com"), some (.jobj []), none⟩
    "ghost@example.com" [] (by decide) rfl

/-- C9: For every ingestion request whose aiAgentAddress is absent, blank,
or not a string, or whose payload is absent or not a structured object,
`handle_message_ingestion` returns outcome code INVALID_REQUEST with HTTP
status 400 and performs no directory lookup.  (The validation rejections
complete before the defective lookup call site, so these responses are
really returned.) -/
theorem invalid_request_rejected_without_lookup
    (req : IngestRequest)
    (h : req.aiAgentAddress = none
       ∨ (∃ s, req.aiAgentAddress = some (.jstr s) ∧ pyStrip s = "")
       ∨ (∀ s, req.aiAgentAddress ≠ some (.jstr s))
       ∨ req.payload = none
       ∨ (∀ fs, req.payload ≠ some (.jobj fs))) :
    (∃ msg, (handleMessageIngestion req).fst
        = .ok ⟨400, .err "INVALID_REQUEST" msg⟩)
    ∧ (handleMessageIngestion req).snd.lookups = []
    ∧ (handleMessageIngestion req).snd.publishes = [] := by
  have main : handleMessageIngestion req
      = (.ok ⟨400, .err "INVALID_REQUEST"
          "aiAgentAddress is required and must be a non-empty string."⟩, ⟨[], []⟩)
    ∨ handleMessageIngestion req
      = (.ok ⟨400, .err "INVALID_REQUEST" "payload is required."⟩, ⟨[], []⟩)
    ∨ handleMessageIngestion req
      = (.ok ⟨400, .err "INVALID_REQUEST" "payload must be a JSON object."⟩, ⟨[], []⟩) := by
    rcases h with h | ⟨s, hs, hts⟩ | h | h | h
    · left
      have hv : validateAddress req.aiAgentAddress = none := by rw [h]; rfl
      simp [handleMessageIngestion, hv]
    · left
      have hv : validateAddress req.aiAgentAddress = none := by
        rw [hs]; simp [validateAddress, hts]
      simp [handleMessageIngestion, hv]
    · left
      have hv : validateAddress req.aiAgentAddress = none := by
        cases hreq : req.aiAgentAddress with
        | none => rfl
        | some v =>
          rcases v with _ | b | n | s | xs | fs
          case jstr => exact absurd hreq (h s)
          all_goals rfl
      simp [handleMessageIngestion, hv]
    · cases hv : validateAddress req.aiAgentAddress with
      | none => left; simp [handleMessageIngestion, hv]
      | some addr => right; left; simp [handleMessageIngestion, hv, h]
    · cases hv : validateAddress req.aiAgentAddress with
      | none => left; simp [handleMessageIngestion, hv]
      | some addr =>
        cases hp : req.payload with
        | none => right; left; simp [handleMessageIngestion, hv, hp]
        | some p =>
          rcases p with _ | b | n | s | xs | fs
          case jobj => exact absurd hp (h fs)
          all_goals right; right; simp [handleMessageIngestion, hv, hp]
  rcases main with hm | hm | hm <;> rw [hm] <;> exact ⟨⟨_, rfl⟩, rfl, rfl⟩

/-- Witness for C9: a request with the address key absent entirely. -/
theorem invalid_request_rejected_without_lookup_witness :
    (∃ msg, (handleMessageIngestion ⟨none, some (.jobj []), none⟩).fst
        = .ok ⟨400, .err "INVALID_REQUEST" msg⟩)
    ∧ (handleMessageIngestion ⟨none, some (.jobj []), none⟩).snd.lookups = []
    ∧ (handleMessageIngestion ⟨none, some (.jobj []), none⟩).snd.publishes = [] :=
  invalid_request_rejected_without_lookup
    ⟨none, some (.jobj []), none⟩ (Or.inl rfl)

/-! Concrete fixtures: validated requests that, in the spec's intent, would
reach the publish and transform steps. -/

/-- The module's own Scenario 6 self-test input (lines 620-630): a valid
request for an ACTIVE agent while the publish primitive is set to fail. -/
def scenario6Request : IngestRequest :=
  ⟨some (.jstr "active-agent@example.com"),
   some (.jobj [("command", .jstr "criticalTask")]),
   some (.jobj [("serviceName", .jstr "CriticalService")])⟩

/-- The module's Scenario 1 self-test input: a valid request with all three
sender-metadata keys present. -/
def activeAgentRequest : IngestRequest :=
  ⟨some (.jstr "active-agent@example.com"),
   some (.jobj [("command", .jstr "processData"), ("value", .jnum 42)]),
   some (.jobj [("serviceName", .jstr "CRM_System"),
                ("correlationId", .jstr "crm-corr-123"),
                ("senderProvidedMessageId", .jstr "crm-msg-abc")])⟩

/-- C5 (code bug): the publish step (line 529) is unreachable.  At the
module's own Scenario 6 self-test input — which asserts 500/PUB_SUB_ERROR
when the publish primitive fails, and whose Scenario 1 counterpart asserts
202 with a messageId on success — the handler raises `AttributeError` at
the status check on the un-awaited lookup coroutine: the publish primitive
is never invoked (empty publish trace), so neither the publish-failure
response nor the 202/messageId response is ever produced. -/
theorem publish_step_unreachable_attribute_error :
    handleMessageIngestion scenario6Request
      = (.error .attributeError, ⟨[], []⟩) := rfl

/-- C8 (code bug): the transform step (lines 490-517) is dead code.  At the
Scenario 1 self-test input, with a JSON-object payload and all three
sender-metadata keys present, the handler raises `AttributeError` at line
467 before the transform: no envelope is ever built and nothing is ever
handed to the publish primitive (empty publish trace). -/
theorem transform_step_unreachable_attribute_error :
    handleMessageIngestion activeAgentRequest
      = (.error .attributeError, ⟨[], []⟩)
    ∧ (handleMessageIngestion activeAgentRequest).snd.publishes = [] :=
  ⟨rfl, rfl⟩

/-! Helper notions for the update claims: the updatable columns of a row
viewed as `FieldVal`s, well-typedness of a kwargs entry, and the value an
entry is persisted as. -/

/-- The updatable columns of a row, read back in `FieldVal` form. -/
def recordField (r : AgentRecord) : String → Option FieldVal
  | "inbox_destination_type" => some (.vStr r.inbox_destination_type)
  | "inbox_name" => some (.vStr r.inbox_name)
  | "status" => some (.vStr r.status)
  | "description" =>
    some (match r.description with | some d => .vStr d | none => .vNull)
  | "owner_team" =>
    some (match r.owner_team with | some d => .vStr d | none => .vNull)
  | "last_health_check_timestamp" =>
    some (match r.last_health_check_timestamp with | some t => .vTime t | none => .vNull)
  | _ => none

/-- Whether a kwargs entry names an allowed column and carries a value of
that column's type, so that the UPDATE can bind it. -/
def fieldValTyped : String × FieldVal → Bool
  | ("inbox_destination_type", .vStr _) => true
  | ("inbox_name", .vStr _) => true
  | ("status", .vStr _) => true
  | ("description", .vStr _) => true
  | ("description", .vNull) => true
  | ("owner_team", .vStr _) => true
  | ("owner_team", .vNull) => true
  | ("last_health_check_timestamp", .vTime _) => true
  | ("last_health_check_timestamp", .vNull) => true
  | _ => false

/-- The value a kwargs entry is persisted as: `status` is uppercased, and a
`None` health-check timestamp is replaced by the current time. -/
def expectedUpdateVal (now : Nat) : String × FieldVal → FieldVal
  | ("status", .vStr v) => .vStr (pyUpper v)
  | ("last_health_check_timestamp", .vNull) => .vTime now
  | e => e.2

/-- The kwargs after the repository's two normalization steps. -/
def normalizeKwargs (now : Nat) (kw : List (String × FieldVal)) :
    List (String × FieldVal) :=
  kw.map (fun e => (e.1, expectedUpdateVal now e))

theorem recordField_stamp (r : AgentRecord) (ub : Option String) (n : Nat)
    (k : String) :
    recordField { r with updated_by := ub, last_updated_timestamp := n } k
      = recordField r k := rfl

theorem applyField_typed (r : AgentRecord) (e : String × FieldVal)
    (h : fieldValTyped e = true) :
    ∃ r1, applyField r e = some r1 ∧ recordField r1 e.1 = some e.2
      ∧ (∀ k, k ≠ e.1 → recordField r1 k = recordField r k)
      ∧ r1.last_updated_timestamp = r.last_updated_timestamp
      ∧ r1.updated_by = r.updated_by
      ∧ r1.ai_agent_address = r.ai_agent_address := by
  obtain ⟨k, v⟩ := e
  unfold fieldValTyped at h
  split at h
  all_goals try exact absurd h Bool.false_ne_true
  all_goals rename_i heq
  all_goals cases heq
  all_goals refine ⟨_, rfl, rfl, ?_, rfl, rfl, rfl⟩
  all_goals intro k' hk
  all_goals unfold recordField
  all_goals split <;> simp_all

theorem applyFields_typed (r : AgentRecord) (kw : List (String × FieldVal))
    (h : ∀ e ∈ kw, fieldValTyped e = true)
    (hnd : (kw.map Prod.fst).Nodup) :
    ∃ r1, applyFields r kw = some r1
      ∧ (∀ e ∈ kw, recordField r1 e.1 = some e.2)
      ∧ (∀ k, k ∉ kw.map Prod.fst → recordField r1 k = recordField r k)
      ∧ r1.last_updated_timestamp = r.last_updated_timestamp
      ∧ r1.updated_by = r.updated_by
      ∧ r1.ai_agent_address = r.ai_agent_address := by
  induction kw generalizing r with
  | nil => exact ⟨r, rfl, by simp, fun _ _ => rfl, rfl, rfl, rfl⟩
  | cons e kw ih =>
    obtain ⟨ra, hra, hfld, hother, hlu, hub, haddr⟩ :=
      applyField_typed r e (h e (List.mem_cons_self e kw))
    simp only [List.map_cons, List.nodup_cons] at hnd
    obtain ⟨r1, h1, hmem1, hother1, hlu1, hub1, haddr1⟩ :=
      ih ra (fun e' he' => h e' (List.mem_cons_of_mem e he')) hnd.2
    refine ⟨r1, ?_, ?_, ?_, hlu1.trans hlu, hub1.trans hub, haddr1.trans haddr⟩
    · simp [applyFields, hra, h1]
    · intro e' he'
      rcases List.mem_cons.mp he' with he' | he'
      · subst he'
        rw [hother1 e'.1 hnd.1, hfld]
      · exact hmem1 e' he'
    · intro k hk
      simp only [List.map_cons, List.mem_cons, not_or] at hk
      rw [hother1 k hk.2, hother k hk.1]

theorem normalizeKwargs_steps (now : Nat) (kw : List (String × FieldVal))
    (h : ∀ e ∈ kw, fieldValTyped e = true) :
    upperStatusAll kw = some (kw.map (fun e =>
        match e with
        | ("status", .vStr v) => ("status", FieldVal.vStr (pyUpper v))
        | e => e))
    ∧ (kw.map (fun e =>
        match e with
        | ("status", .vStr v) => ("status", FieldVal.vStr (pyUpper v))
        | e => e)).map (fun e =>
          if e.1 = "last_health_check_timestamp" ∧ e.2 = FieldVal.vNull then
            (e.1, FieldVal.vTime now)
          else e) = normalizeKwargs now kw := by
  induction kw with
  | nil => exact ⟨rfl, rfl⟩
  | cons e kw ih =>
    have he : fieldValTyped e = true := h e (List.mem_cons_self e kw)
    obtain ⟨ih1, ih2⟩ := ih (fun e' he' => h e' (List.mem_cons_of_mem e he'))
    constructor
    · show (match upperStatusEntry e with
        | none => none
        | some e1 => (upperStatusAll kw).map (e1 :: ·)) = _
      rw [ih1]
      obtain ⟨k, v⟩ := e
      unfold fieldValTyped at he
      split at he
      all_goals try exact absurd he Bool.false_ne_true
      all_goals rename_i heq
      all_goals cases heq
      all_goals rfl
    · rw [List.map_cons, List.map_cons, ih2]
      obtain ⟨k, v⟩ := e
      unfold fieldValTyped at he
      split at he
      all_goals try exact absurd he Bool.false_ne_true
      all_goals rename_i heq
      all_goals cases heq
      all_goals rfl

theorem normalizeKwargs_keys (now : Nat) (kw : List (String × FieldVal)) :
    (normalizeKwargs now kw).map Prod.fst = kw.map Prod.fst := by
  simp [normalizeKwargs]

theorem normalizeKwargs_typed (now : Nat) (kw : List (String × FieldVal))
    (h : ∀ e ∈ kw, fieldValTyped e = true) :
    ∀ e ∈ normalizeKwargs now kw, fieldValTyped e = true := by
  intro e he
  simp only [normalizeKwargs, List.mem_map] at he
  obtain ⟨e0, he0, rfl⟩ := he
  have := h e0 he0
  obtain ⟨k, v⟩ := e0
  unfold fieldValTyped at this
  split at this <;> simp_all [expectedUpdateVal, fieldValTyped]

/-- Counterexample for C2: two updates whose field sets contain only
allowed field names but which the code rejects with an exception instead of
applying-and-stamping — the empty update (`ValueError("No fields to
update")`) and a `status: None` update (`None.upper()` raises
`AttributeError`).  In both runs the store is returned unchanged. -/
theorem update_details_claim_fails_on_empty_and_none_status :
    updateAgentMappingDetails
        [⟨"a@example.com", "GCP_PUBSUB_TOPIC", "t", "ACTIVE", none, none,
          some "tester", 5, 5, none⟩] "a@example.com" (some "ops") [] 9
      = (.error .noFieldsToUpdate,
         [⟨"a@example.com", "GCP_PUBSUB_TOPIC", "t", "ACTIVE", none, none,
           some "tester", 5, 5, none⟩])
    ∧ updateAgentMappingDetails
        [⟨"a@example.com", "GCP_PUBSUB_TOPIC", "t", "ACTIVE", none, none,
          some "tester", 5, 5, none⟩] "a@example.com" (some "ops")
        [("status", .vNull)] 9
      = (.error .typeError,
         [⟨"a@example.com", "GCP_PUBSUB_TOPIC", "t", "ACTIVE", none, none,
           some "tester", 5, 5, none⟩]) :=
  ⟨rfl, rfl⟩

/-- C2 (amended): For every existing record and every non-empty update whose
field set contains only allowed field names, bound to values of the columns'
types, `update_agent_mapping_details` applies the fields and stamps both
lastUpdatedAt and updatedBy in the same atomic operation; for every update
containing an unknown field name, it rejects the update without modifying
the record. -/
theorem update_details_applies_allowed_fields_and_stamps
    (s : Store) (addr : String) (ub : Option String)
    (kwargs : List (String × FieldVal)) (now : Nat) (r : AgentRecord) :
    (kwargs ≠ [] →
     (kwargs.map Prod.fst).Nodup →
     (∀ k ∈ kwargs.map Prod.fst, k ∈ allowedUpdateFields) →
     (∀ e ∈ kwargs, fieldValTyped e = true) →
     storeFind s addr = some r →
     ∃ r', updateAgentMappingDetails s addr ub kwargs now
            = (.ok r', storeReplace s addr r')
       ∧ r'.last_updated_timestamp = now
       ∧ r'.updated_by = ub
       ∧ (∀ e ∈ kwargs, recordField r' e.1 = some (expectedUpdateVal now e)))
    ∧ ((∃ k ∈ kwargs.map Prod.fst, k ∉ allowedUpdateFields) →
       ∃ bad, bad ≠ []
         ∧ updateAgentMappingDetails s addr ub kwargs now
            = (.error (.invalidFields bad), s)) := by
  constructor
  · intro hne hnd hallowed htyped hfind
    obtain ⟨hmapM, hmap2⟩ := normalizeKwargs_steps now kwargs htyped
    obtain ⟨r1, happly, hflds, _, hlu1, hub1, _⟩ :=
      applyFields_typed r (normalizeKwargs now kwargs)
        (normalizeKwargs_typed now kwargs htyped)
        (by rw [normalizeKwargs_keys]; exact hnd)
    refine ⟨{ r1 with updated_by := ub, last_updated_timestamp := now }, ?_, rfl, rfl, ?_⟩
    · have hemp : kwargs.isEmpty = false := by
        cases kwargs with
        | nil => exact absurd rfl hne
        | cons a l => rfl
      have hinv : ((kwargs.map Prod.fst).filter
          (fun k => k ∉ allowedUpdateFields)).isEmpty = true := by
        simp only [List.isEmpty_iff, List.filter_eq_nil_iff, decide_eq_true_eq]
        intro k hk
        simp [hallowed k hk]
      simp only [updateAgentMappingDetails, hemp, Bool.false_eq_true,
        if_false, hinv, if_true, hmapM, hmap2, dbUpdateAgentInbox, hfind,
        happly]
    · intro e he
      have hmem : (e.1, expectedUpdateVal now e) ∈ normalizeKwargs now kwargs := by
        simp only [normalizeKwargs, List.mem_map]
        exact ⟨e, he, rfl⟩
      rw [recordField_stamp, hflds (e.1, expectedUpdateVal now e) hmem]
  · rintro ⟨k, hk, hknot⟩
    have hkmem : k ∈ (kwargs.map Prod.fst).filter (fun k => k ∉ allowedUpdateFields) :=
      List.mem_filter.mpr ⟨hk, by simpa using hknot⟩
    have hemp : kwargs.isEmpty = false := by
      cases kwargs with
      | nil => simp at hk
      | cons a l => rfl
    have hinv : ((kwargs.map Prod.fst).filter
        (fun k => k ∉ allowedUpdateFields)).isEmpty = false := by
      cases hfe : (kwargs.map Prod.fst).filter (fun k => k ∉ allowedUpdateFields) with
      | nil => rw [hfe] at hkmem; simp at hkmem
      | cons a l => rfl
    refine ⟨(kwargs.map Prod.fst).filter (fun k => k ∉ allowedUpdateFields),
      List.ne_nil_of_mem hkmem, ?_⟩
    simp only [updateAgentMappingDetails, hemp, hinv, Bool.false_eq_true,
      if_false]

/-- Witness for C2 at a concrete record and a three-field update (status is
passed lowercase, the health-check timestamp as `None`). -/
theorem update_details_applies_allowed_fields_and_stamps_witness :
    (∃ r', updateAgentMappingDetails
        [⟨"a@example.com", "GCP_PUBSUB_TOPIC", "t", "ACTIVE", none, none,
          some "tester", 5, 5, none⟩] "a@example.com" (some "ops")
        [("status", .vStr "inactive"), ("description", .vStr "d"),
         ("last_health_check_timestamp", .vNull)] 9
        = (.ok r', storeReplace
            [⟨"a@example.com", "GCP_PUBSUB_TOPIC", "t", "ACTIVE", none, none,
              some "tester", 5, 5, none⟩] "a@example.com" r')
      ∧ r'.last_updated_timestamp = 9
      ∧ r'.updated_by = some "ops"
      ∧ (∀ e ∈ [(("status" : String), FieldVal.vStr "inactive"),
                ("description", FieldVal.vStr "d"),
                ("last_health_check_timestamp", FieldVal.vNull)],
          recordField r' e.1 = some (expectedUpdateVal 9 e)))
    ∧ (∃ bad, bad ≠ []
        ∧ updateAgentMappingDetails
            [⟨"a@example.com", "GCP_PUBSUB_TOPIC", "t", "ACTIVE", none, none,
              some "tester", 5, 5, none⟩] "a@example.com" (some "ops")
            [("status", .vStr "inactive"), ("bogus_field", .vStr "z")] 9
          = (.error (.invalidFields bad),
             [⟨"a@example.com", "GCP_PUBSUB_TOPIC", "t", "ACTIVE", none, none,
               some "tester", 5, 5, none⟩])) :=
  ⟨(update_details_applies_allowed_fields_and_stamps _ "a@example.com"
      (some "ops") _ 9 _).1 (by decide) (by decide) (by decide) (by decide) rfl,
   (update_details_applies_allowed_fields_and_stamps _ "a@example.com"
      (some "ops") [("status", .vStr "inactive"), ("bogus_field", .vStr "z")] 9
      ⟨"a@example.com", "GCP_PUBSUB_TOPIC", "t", "ACTIVE", none, none,
        some "tester", 5, 5, none⟩).2
     ⟨"bogus_field", by decide, by decide⟩⟩

/-- The row produced by the first registration in the C6 scenario. -/
def dupFirstRecord : AgentRecord :=
  ⟨"dup@example.com", "GCP_PUBSUB_TOPIC", "projects/p/topics/dup", "ACTIVE",
   none, none, some "tester", 1, 1, none⟩

/-- C6 (code bug): registering the same address twice.  The first insert
succeeds; the second hits the store-side unique violation, but because
`register_agent_mapping` runs its INSERT through `_fetchrow` — whose single
`except asyncpg.PostgresError` handler collapses the subclass
`UniqueViolationError` into the generic `CAMSRepositoryError` — the caller
receives the generic store error (surfaced as 500), not `DuplicateAgentError`
(409).  Only `_execute` performs the `UniqueViolationError →
DuplicateAgentError` translation, and the repository's own
`except DuplicateAgentError: raise` in `register_agent_mapping` is
unreachable. -/
theorem duplicate_registration_yields_generic_store_error :
    registerAgentMapping [] "dup@example.com" "GCP_PUBSUB_TOPIC"
        "projects/p/topics/dup" none none (some "tester") "ACTIVE" 1
      = (.ok dupFirstRecord, [dupFirstRecord])
    ∧ registerAgentMapping [dupFirstRecord] "dup@example.com" "GCP_PUBSUB_TOPIC"
        "projects/p/topics/dup" none none (some "tester") "ACTIVE" 2
      = (.error .repositoryError, [dupFirstRecord])
    ∧ RepoErr.repositoryError ≠ RepoErr.duplicateAgent
    ∧ executeWrap (α := AgentRecord) (.error .uniqueViolation)
      = .error .duplicateAgent :=
  ⟨rfl, rfl, by decide, rfl⟩

/-- C7: For every health report against an existing record: if the reported
status is UNHEALTHY, the handler sets lastHealthCheckAt and forces status to
INACTIVE regardless of the record's prior status; if the reported status is
HEALTHY, it sets lastHealthCheckAt to the provided or current timestamp and
leaves status unchanged; a report with an unrecognized status value is
rejected before any store access. -/
theorem health_report_status_transitions
    (s : Store) (addr statusField : String) (tsOpt : Option Nat) (now : Nat)
    (r : AgentRecord) (hfind : storeFind s addr = some r) :
    (statusField = "UNHEALTHY" →
      reportAgentHealth s addr statusField tsOpt now =
        (.success,
         storeReplace s addr
           { r with status := "INACTIVE",
                    last_health_check_timestamp := some (tsOpt.getD now),
                    updated_by := some "agent_health_check",
                    last_updated_timestamp := now },
         [addr]))
    ∧ (statusField = "HEALTHY" →
      reportAgentHealth s addr statusField tsOpt now =
        (.success,
         storeReplace s addr
           { r with last_health_check_timestamp := some (tsOpt.getD now),
                    updated_by := some "agent_health_check",
                    last_updated_timestamp := now },
         [addr]))
    ∧ (pyUpper statusField ∉ ["HEALTHY", "UNHEALTHY"] →
      reportAgentHealth s addr statusField tsOpt now =
        (.badRequest
          "Invalid health status. Must be \x27HEALTHY\x27 or \x27UNHEALTHY\x27.",
         s, [])) := by
  refine ⟨?_, ?_, ?_⟩
  · rintro rfl
    simp [reportAgentHealth, hfind, routerClientUpdateDetails,
      updateAgentMappingDetails, upperStatusAll, upperStatusEntry,
      dbUpdateAgentInbox, applyFields, applyField, allowedUpdateFields,
      show pyUpper "UNHEALTHY" = "UNHEALTHY" from by decide,
      show pyUpper "INACTIVE" = "INACTIVE" from by decide]
  · rintro rfl
    simp [reportAgentHealth, hfind, routerClientUpdateDetails,
      updateAgentMappingDetails, upperStatusAll, upperStatusEntry,
      dbUpdateAgentInbox, applyFields, applyField, allowedUpdateFields,
      show pyUpper "HEALTHY" = "HEALTHY" from by decide]
  · intro hbad
    simp only [reportAgentHealth]
    rw [if_pos (by simpa using hbad)]

/-- The record and store used by the C7 witness. -/
def healthFixtureRecord : AgentRecord :=
  ⟨"h@example.com", "GCP_PUBSUB_TOPIC", "t", "ACTIVE", none, none,
   some "tester", 5, 5, none⟩

/-- Witness for C7 at a concrete ACTIVE record (demotion by an UNHEALTHY
report, a HEALTHY report that keeps the status, and a rejected value). -/
theorem health_report_status_transitions_witness :
    (reportAgentHealth [healthFixtureRecord] "h@example.com" "UNHEALTHY"
        (some 20) 21 =
      (.success,
       storeReplace [healthFixtureRecord] "h@example.com"
         { healthFixtureRecord with
           status := "INACTIVE",
           last_health_check_timestamp := some ((some 20).getD 21),
           updated_by := some "agent_health_check",
           last_updated_timestamp := 21 },
       ["h@example.com"]))
    ∧ (reportAgentHealth [healthFixtureRecord] "h@example.com" "HEALTHY"
        none 22 =
      (.success,
       storeReplace [healthFixtureRecord] "h@example.com"
         { healthFixtureRecord with
           last_health_check_timestamp := some ((none : Option Nat).getD 22),
           updated_by := some "agent_health_check",
           last_updated_timestamp := 22 },
       ["h@example.com"]))
    ∧ (reportAgentHealth [healthFixtureRecord] "h@example.com" "DEGRADED"
        none 23 =
      (.badRequest
        "Invalid health status. Must be \x27HEALTHY\x27 or \x27UNHEALTHY\x27.",
       [healthFixtureRecord], [])) :=
  ⟨(health_report_status_transitions [healthFixtureRecord] "h@example.com"
      "UNHEALTHY" (some 20) 21 healthFixtureRecord (by decide)).1 rfl,
   (health_report_status_transitions [healthFixtureRecord] "h@example.com"
      "HEALTHY" none 22 healthFixtureRecord (by decide)).2.1 rfl,
   (health_report_status_transitions [healthFixtureRecord] "h@example.com"
      "DEGRADED" none 23 healthFixtureRecord (by decide)).2.2 (by decide)⟩

/-! Helper notions for C10: a caller passing an already-uppercased status. -/

/-- The same kwargs entry with its `status` value uppercased by the caller. -/
def upperStatusInput : String × FieldVal → String × FieldVal
  | ("status", .vStr v) => ("status", .vStr (pyUpper v))
  | e => e

theorem upperStatusEntry_upperStatusInput (e : String × FieldVal) :
    upperStatusEntry (upperStatusInput e) = upperStatusEntry e := by
  obtain ⟨k, v⟩ := e
  unfold upperStatusInput
  split
  · rename_i heq
    cases heq
    simp [upperStatusEntry, pyUpper_idem]
  · rfl

theorem upperStatusInput_fst (e : String × FieldVal) :
    (upperStatusInput e).1 = e.1 := by
  obtain ⟨k, v⟩ := e
  unfold upperStatusInput
  split
  · rename_i heq
    cases heq
    rfl
  · rfl

theorem upperStatusAll_map_upperStatusInput (kw : List (String × FieldVal)) :
    upperStatusAll (kw.map upperStatusInput) = upperStatusAll kw := by
  induction kw with
  | nil => rfl
  | cons e kw ih =>
    show (match upperStatusEntry (upperStatusInput e) with
      | none => none
      | some e1 => (upperStatusAll (kw.map upperStatusInput)).map (e1 :: ·)) = _
    rw [upperStatusEntry_upperStatusInput, ih]
    rfl

/-- C10: For every input, the status value written to the store is
normalized to uppercase before persistence (by `register_agent_mapping` and
`update_agent_mapping_details`), and the health endpoint uppercases the
reported health status before validating it, so lowercase or mixed-case
status inputs behave identically to their uppercase forms rather than being
rejected. -/
theorem status_uppercase_normalization_behaviour :
    (∀ (s : Store) (addr dtype iname : String) (descr team ub : Option String)
        (st : String) (now : Nat),
      registerAgentMapping s addr dtype iname descr team ub (pyUpper st) now =
        registerAgentMapping s addr dtype iname descr team ub st now)
    ∧ (∀ (s : Store) (addr dtype iname : String) (descr team ub : Option String)
        (st : String) (now : Nat) (rec : AgentRecord) (s' : Store),
      registerAgentMapping s addr dtype iname descr team ub st now
          = (.ok rec, s') →
        rec.status = pyUpper st)
    ∧ (∀ (s : Store) (addr : String) (ub : Option String)
        (kwargs : List (String × FieldVal)) (now : Nat),
      updateAgentMappingDetails s addr ub (kwargs.map upperStatusInput) now =
        updateAgentMappingDetails s addr ub kwargs now)
    ∧ (∀ (s : Store) (addr statusField : String) (tsOpt : Option Nat) (now : Nat),
      reportAgentHealth s addr (pyUpper statusField) tsOpt now =
        reportAgentHealth s addr statusField tsOpt now) := by
  refine ⟨?_, ?_, ?_, ?_⟩
  · intro s addr dtype iname descr team ub st now
    simp [registerAgentMapping, pyUpper_idem]
  · intro s addr dtype iname descr team ub st now rec s' h
    unfold registerAgentMapping pgInsertAgentInbox at h
    cases hf : storeFind s addr with
    | some r0 =>
      rw [hf] at h
      simp [fetchrowWrap] at h
    | none =>
      rw [hf] at h
      simp only [fetchrowWrap, Prod.mk.injEq, Except.ok.injEq] at h
      rw [← h.1]
  · intro s addr ub kwargs now
    unfold updateAgentMappingDetails
    have hkeys : (kwargs.map upperStatusInput).map Prod.fst = kwargs.map Prod.fst := by
      simp [List.map_map, Function.comp_def, upperStatusInput_fst]
    have hemp : (kwargs.map upperStatusInput).isEmpty = kwargs.isEmpty := by
      cases kwargs <;> rfl
    rw [hkeys, hemp, upperStatusAll_map_upperStatusInput]
  · intro s addr statusField tsOpt now
    simp only [reportAgentHealth, pyUpper_idem]

/-- The record produced by the C10 witness registration. -/
def upperWitnessRecord : AgentRecord :=
  ⟨"w@example.com", "GCP", "ib", "ACTIVE", none, none, some "u", 1, 1, none⟩

/-- Witness for C10 at concrete lowercase inputs. -/
theorem status_uppercase_normalization_behaviour_witness :
    (registerAgentMapping [] "w@example.com" "gcp" "ib" none none (some "u")
        (pyUpper "active") 1 =
      registerAgentMapping [] "w@example.com" "gcp" "ib" none none (some "u")
        "active" 1)
    ∧ upperWitnessRecord.status = pyUpper "active"
    ∧ (updateAgentMappingDetails [upperWitnessRecord] "w@example.com" (some "u")
        ([("status", FieldVal.vStr "inactive")].map upperStatusInput) 2 =
      updateAgentMappingDetails [upperWitnessRecord] "w@example.com" (some "u")
        [("status", FieldVal.vStr "inactive")] 2)
    ∧ (reportAgentHealth [upperWitnessRecord] "w@example.com" (pyUpper "healthy")
        none 3 =
      reportAgentHealth [upperWitnessRecord] "w@example.com" "healthy" none 3) :=
  ⟨status_uppercase_normalization_behaviour.1 [] "w@example.com" "gcp" "ib"
      none none (some "u") "active" 1,
   status_uppercase_normalization_behaviour.2.1 [] "w@example.com" "gcp" "ib"
      none none (some "u") "active" 1 upperWitnessRecord [upperWitnessRecord]
      rfl,
   status_uppercase_normalization_behaviour.2.2.1 [upperWitnessRecord]
      "w@example.com" (some "u") [("status", FieldVal.vStr "inactive")] 2,
   status_uppercase_normalization_behaviour.2.2.2 [upperWitnessRecord]
      "w@example.com" "healthy" none 3⟩

/-- C3 (code bug): a resolve whose first attempt fails transiently (a 5xx
or a connection error) is supposed to be retried with doubling backoff, but
`cams_api_async.py` never imports `asyncio`, so the backoff line raises
`NameError` after a single attempt: no sleep happens and no retry runs.
The 4xx/not-found paths do terminate immediately without retry, as
claimed. -/
theorem cams_request_transient_failure_crashes_before_retry :
    camsRequest 3 (fun _ => .httpStatus 503) = (.raisedNameError, 1, [])
    ∧ camsRequest 3 (fun _ => .requestError) = (.raisedNameError, 1, [])
    ∧ camsRequest 3 (fun _ => .httpStatus 404) = (.raisedHttp 404, 1, [])
    ∧ camsApiGetAgentMapping (fun _ => .httpStatus 404) = .notFound
    ∧ camsApiGetAgentMapping (fun _ => .httpStatus 503) = .raisedNameError
    ∧ camsApiGetAgentMapping (fun _ => .success) = .found :=
  ⟨rfl, rfl, rfl, rfl, rfl, rfl⟩

/-- Counterexample for C4: the HTTP client layer
(`cams_api_async.CAMSClient.delete_agent_mapping`) swallows the 404 raised
for a missing record (`# Ignore 404 on delete`) and returns exactly what a
successful delete returns — success, not a not-found result. -/
theorem api_delete_missing_record_reports_success :
    camsApiDeleteAgentMapping (fun _ => .httpStatus 404) = .okDel
    ∧ camsApiDeleteAgentMapping (fun _ => .success) = .okDel :=
  ⟨rfl, rfl⟩

/-- C4 (amended): For every address with no existing record, the repository
raises `AgentNotFoundError` and the router-side client reports `False`
(not-found, not success), but the HTTP client layer treats the 404 on
delete as success: the delete path does not report not-found at every
layer. -/
theorem delete_missing_record_per_layer
    (s : Store) (addr : String) (outcomes : Nat → AttemptOutcome)
    (habs : storeFind s addr = none)
    (h404 : outcomes 0 = .httpStatus 404) :
    deleteAgentMappingRepo s addr = (.error .agentNotFound, s)
    ∧ routerClientDeleteAgentMapping s addr = (.ok false, s)
    ∧ camsApiDeleteAgentMapping outcomes = .okDel := by
  refine ⟨?_, ?_, ?_⟩
  · simp [deleteAgentMappingRepo, habs]
  · simp [routerClientDeleteAgentMapping, deleteAgentMappingRepo, habs]
  · simp [camsApiDeleteAgentMapping, camsRequest, requestFrom, h404]

/-- Witness for C4 at the empty store. -/
theorem delete_missing_record_per_layer_witness :
    deleteAgentMappingRepo [] "x@example.com" = (.error .agentNotFound, [])
    ∧ routerClientDeleteAgentMapping [] "x@example.com" = (.ok false, [])
    ∧ camsApiDeleteAgentMapping (fun _ => .httpStatus 404) = .okDel :=
  delete_missing_record_per_layer [] "x@example.com"
    (fun _ => .httpStatus 404) rfl rfl

end AgentRouter
